import Mathlib

/-!
# Tamper-alert poller (`tamper_monitor/static/admin_notify.js`)

A shallow embedding of the browser script

```
(function(){
  function checkAlerts(){
    fetch('/tamper-monitor/alerts/count-unacked/', {credentials:'same-origin'})
      .then(resp => resp.json())
      .then(data => {
        if(data.count && data.count > 0){
          alert('Tamper Alert: ' + data.count + ' unacknowledged alert(s). Open Admin -> TamperAlerts.');
        }
      }).catch(()=>{});
  }
  setInterval(checkAlerts, 10000);
  checkAlerts();
})();
```

The script is embedded in three layers:

* the JavaScript values a parsed JSON body can hold, with the coercions the
  script applies to `data.count` (property read, `ToBoolean`, `> 0`, string
  concatenation);
* the promise chain of one poll cycle (`fetch … .then … .then … .catch`);
* the page as a transition system: a logical clock, the interval timers, the
  requests in flight and the trace of effects.
-/

namespace TamperMonitor

/-! ## JavaScript values -/

/-- Exceptions the script can meet, which are also the rejection reasons of its promises. -/
inductive JSError where
  | typeError
  | syntaxError
  deriving DecidableEq, Repr

/-- A JavaScript Number, as far as the script can observe one.

A finite non-zero Number is held as the decimal that identifies it, which is how
`Number::toString` (ECMA-262, 6.1.6.1.20) is specified: `digits` is the integer
`s` of that clause (the shortest run of significant digits, not divisible by
10), `point` is its integer `n`, and the value is `s × 10 ^ (n - k)` where `k`
is the number of digits of `s`.  For instance `3` is `finite false 3 1`, `1500`
is `finite false 15 4`, `0.25` is `finite false 25 0` and `1e21` is
`finite false 1 22`. -/
inductive JSNumber where
  | nan
  | inf (neg : Bool)
  | zero (neg : Bool)
  | finite (neg : Bool) (digits : Nat) (point : Int)
  deriving DecidableEq, Repr

/-- A JavaScript value as `JSON.parse` builds it (`undefined` is what reading a
missing property gives).  An object is the list of its own properties in
insertion order. -/
inductive JSValue where
  | undefined
  | null
  | bool (b : Bool)
  | number (x : JSNumber)
  | string (s : String)
  | array (xs : List JSValue)
  | object (props : List (String × JSValue))
  deriving Repr

/-- A primitive value: the result of `ToPrimitive`. -/
inductive JSPrim where
  | undefined
  | null
  | bool (b : Bool)
  | number (x : JSNumber)
  | string (s : String)
  deriving DecidableEq, Repr

/-- The constant `Number.MAX_SAFE_INTEGER`, `2 ^ 53 - 1`: every integer up to it is a Number. -/
def maxSafeInteger : Nat := 9007199254740991

/-- How many decimal zeros end `n` (`fuel` bounds the recursion; `n` itself is enough). -/
def trailingZeros : Nat → Nat → Nat
  | 0, _ => 0
  | fuel + 1, n => if n ≠ 0 ∧ n % 10 = 0 then trailingZeros fuel (n / 10) + 1 else 0

/-- The Number whose decimal is the natural number `n`.  For `n` up to
`maxSafeInteger`, and for every larger `n` that a double holds exactly and
identifies by its own digits (such as `10 ^ 21`), this is the Number of
mathematical value `n`. -/
def JSNumber.ofNat (n : Nat) : JSNumber :=
  if n = 0 then .zero false
  else .finite false (n / 10 ^ trailingZeros n n) ((Nat.toDigits 10 n).length : Nat)

/-- The decimal text of a finite positive Number with significant digits `s`
and point position `n`: steps 7 to 11 of `Number::toString` for radix 10. -/
def formatDecimal (s : Nat) (n : Int) : String :=
  let ds := Nat.toDigits 10 s
  let k : Int := (ds.length : Nat)
  if k ≤ n ∧ n ≤ 21 then
    String.mk (ds ++ List.replicate (n - k).toNat '0')
  else if 0 < n ∧ n ≤ 21 then
    String.mk (ds.take n.toNat ++ '.' :: ds.drop n.toNat)
  else if -6 < n ∧ n ≤ 0 then
    String.mk ('0' :: '.' :: List.replicate (-n).toNat '0' ++ ds)
  else
    let e := n - 1
    let exponent := (if e < 0 then "-" else "+") ++ Nat.repr e.natAbs
    if ds.length = 1 then
      String.mk ds ++ "e" ++ exponent
    else
      String.mk (ds.take 1 ++ '.' :: ds.drop 1) ++ "e" ++ exponent

/-- The operation `Number::toString(x, 10)`. -/
def JSNumber.toString : JSNumber → String
  | .nan => "NaN"
  | .inf neg => if neg then "-Infinity" else "Infinity"
  | .zero _ => "0"
  | .finite neg s n => if neg then "-" ++ formatDecimal s n else formatDecimal s n

/-- The operation `ToBoolean` on a Number: false for `NaN`, `+0` and `-0`. -/
def JSNumber.toBoolean : JSNumber → Bool
  | .nan => false
  | .inf _ => true
  | .zero _ => false
  | .finite _ s _ => s != 0

/-- The comparison `x > 0` of a Number with the literal `0`; any comparison with `NaN` is false. -/
def JSNumber.gtZero : JSNumber → Bool
  | .nan => false
  | .inf neg => !neg
  | .zero _ => false
  | .finite neg s _ => !neg && s != 0

/-- The operation `ToBoolean`. -/
def JSValue.toBoolean : JSValue → Bool
  | .undefined => false
  | .null => false
  | .bool b => b
  | .number x => x.toBoolean
  | .string s => s != ""
  | .array _ => true
  | .object _ => true

/-- The own property `key` of a parsed object; when a body repeats a key,
`JSON.parse` keeps the last occurrence. -/
def getOwn (key : String) (props : List (String × JSValue)) : Option JSValue :=
  props.reverse.lookup key

mutual
/-- The operation `ToPrimitive` on a value built by `JSON.parse`.  An array goes through
`Array.prototype.toString`, that is `join(",")`.  A plain object gives
`"[object Object]"` from `Object.prototype.toString`, unless it has an own
property named `toString`: parsed JSON holds no function, so that property
is not callable, `valueOf` returns the object itself, and the conversion
throws a TypeError.  The same holds for the hints number, string and default. -/
def JSValue.toPrimitive : JSValue → Except JSError JSPrim
  | .undefined => .ok .undefined
  | .null => .ok .null
  | .bool b => .ok (.bool b)
  | .number x => .ok (.number x)
  | .string s => .ok (.string s)
  | .array xs =>
    match JSValue.join xs with
    | .ok s => .ok (.string s)
    | .error e => .error e
  | .object props =>
    if (props.map Prod.fst).contains "toString" then .error .typeError
    else .ok (.string "[object Object]")
/-- The method `Array.prototype.join` with the separator `","`. -/
def JSValue.join : List JSValue → Except JSError String
  | [] => .ok ""
  | v :: rest =>
    match JSValue.joinElement v with
    | .error e => .error e
    | .ok first =>
      match rest with
      | [] => .ok first
      | w :: more =>
        match JSValue.join (w :: more) with
        | .error e => .error e
        | .ok others => .ok (first ++ "," ++ others)
/-- The text one element contributes to `join`: empty for `undefined` and `null`, else `ToString`. -/
def JSValue.joinElement : JSValue → Except JSError String
  | .undefined => .ok ""
  | .null => .ok ""
  | .bool b => .ok (if b then "true" else "false")
  | .number x => .ok x.toString
  | .string s => .ok s
  | .array xs => JSValue.join xs
  | .object props =>
    if (props.map Prod.fst).contains "toString" then .error .typeError
    else .ok "[object Object]"
end

/-- The operation `ToString` on a primitive. -/
def JSPrim.toString : JSPrim → String
  | .undefined => "undefined"
  | .null => "null"
  | .bool b => if b then "true" else "false"
  | .number x => x.toString
  | .string s => s

/-- The operation `ToNumber` on a primitive.  Its case for a String,
`StringToNumber` (ECMA-262, 7.1.4.1.1), is the parameter `stringToNumber`: the
standard leaves the rounding of long literals to the implementation, and a
count that is a Number never goes through it. -/
def JSPrim.toNumber (stringToNumber : String → JSNumber) : JSPrim → JSNumber
  | .undefined => .nan
  | .null => .zero false
  | .bool b => if b then .finite false 1 1 else .zero false
  | .number x => x
  | .string s => stringToNumber s

/-! ## One poll cycle: the promise chain of `checkAlerts` -/

/-- How a promise settles. -/
inductive Settled (α : Type) where
  | fulfilled (value : α)
  | rejected (reason : JSError)
  deriving DecidableEq, Repr

/-- What running a piece of the script comes to: the `alert` dialogs it opened,
in order, and how it completes.  For a handler body, `fulfilled v` is a normal
return of `v` and `rejected e` is a throw of `e`; for a promise it is the state
the promise settles in. -/
structure Chain (α : Type) where
  alerts : List String
  settled : Settled α
  deriving DecidableEq, Repr

/-- A normal return. -/
def Chain.ret {α : Type} (v : α) : Chain α := ⟨[], .fulfilled v⟩

/-- A throw. -/
def Chain.throw {α : Type} (e : JSError) : Chain α := ⟨[], .rejected e⟩

/-- The method `promise.then(onFulfilled)`: a fulfilled promise runs the handler
and the derived promise takes the handler's completion (a returned promise is
adopted, a throw rejects); a rejected promise skips the handler and passes its
reason on. -/
def Chain.andThen {α β : Type} (p : Chain α) (onFulfilled : α → Chain β) : Chain β :=
  match p.settled with
  | .fulfilled v => let r := onFulfilled v; ⟨p.alerts ++ r.alerts, r.settled⟩
  | .rejected e => ⟨p.alerts, .rejected e⟩

/-- The method `promise.catch(onRejected)`: a rejected promise runs the handler and
the derived promise takes the handler's completion; a fulfilled promise
passes its value on. -/
def Chain.catch {α : Type} (p : Chain α) (onRejected : JSError → Chain α) : Chain α :=
  match p.settled with
  | .fulfilled v => ⟨p.alerts, .fulfilled v⟩
  | .rejected e => let r := onRejected e; ⟨p.alerts ++ r.alerts, r.settled⟩

/-- Lift a conversion that may throw. -/
def Chain.ofExcept {α : Type} : Except JSError α → Chain α
  | .ok v => Chain.ret v
  | .error e => Chain.throw e

/-- The blocking dialog `alert(message)`. -/
def alert (message : String) : Chain Unit := ⟨[message], .fulfilled ()⟩

/-- The property read `data.count`.  Reading a property of `null` or `undefined`
throws a TypeError; a parsed object gives its own `count` property; every
other read falls through to a built-in prototype (Boolean, Number, String,
Array, Object), none of which has a property `count`, and gives `undefined`. -/
def JSValue.count : JSValue → Except JSError JSValue
  | .undefined => .error .typeError
  | .null => .error .typeError
  | .object props => .ok ((getOwn "count" props).getD .undefined)
  | _ => .ok .undefined

/-- The comparison `v > 0`: `ToPrimitive` with hint number, then `ToNumber`, then
the numeric comparison. -/
def JSValue.gtZero (stringToNumber : String → JSNumber) (v : JSValue) : Except JSError Bool :=
  match v.toPrimitive with
  | .ok p => .ok (p.toNumber stringToNumber).gtZero
  | .error e => .error e

/-- The concatenation `before + v + after` of two string literals around a value:
`ToPrimitive`, then `ToString`, as `+` does when an operand is a string. -/
def concat (before : String) (v : JSValue) (after : String) : Except JSError String :=
  match v.toPrimitive with
  | .ok p => .ok (before ++ p.toString ++ after)
  | .error e => .error e

/-- A response body, taken as what `JSON.parse` makes of it: not JSON at all, or
the parsed value. -/
inductive Body where
  | notJson
  | json (data : JSValue)
  deriving Repr

/-- A response: its HTTP status and its body. -/
structure Response where
  status : Nat
  body : Body
  deriving Repr

/-- The property `resp.ok`: a status in the range 200 to 299. -/
def Response.ok (resp : Response) : Bool := 200 ≤ resp.status && resp.status ≤ 299

/-- The method `resp.json()`: a promise for the parsed body, rejected with a
SyntaxError when the body is not JSON. -/
def Response.json (resp : Response) : Chain JSValue :=
  match resp.body with
  | .notJson => Chain.throw .syntaxError
  | .json data => Chain.ret data

/-- What the network does with one request. -/
inductive FetchResult where
  | networkError
  | response (resp : Response)
  deriving Repr

/-- The promise `fetch(...)` returns, once settled: rejected with a TypeError on a
network failure, fulfilled with the response otherwise, whatever its status. -/
def FetchResult.promise : FetchResult → Chain Response
  | .networkError => Chain.throw .typeError
  | .response resp => Chain.ret resp

/-- The second `then` handler of `checkAlerts`:
`data => { if(data.count && data.count > 0){ alert('Tamper Alert: ' + data.count + ' unacknowledged alert(s). Open Admin -> TamperAlerts.'); } }`.
The operator `&&` evaluates its right operand only when the left one is truthy. -/
def onData (stringToNumber : String → JSNumber) (data : JSValue) : Chain JSValue :=
  (Chain.ofExcept data.count).andThen fun left =>
    if left.toBoolean then
      (Chain.ofExcept data.count).andThen fun c =>
        (Chain.ofExcept (c.gtZero stringToNumber)).andThen fun positive =>
          if positive then
            (Chain.ofExcept data.count).andThen fun shown =>
              (Chain.ofExcept
                (concat "Tamper Alert: " shown
                  " unacknowledged alert(s). Open Admin -> TamperAlerts.")).andThen fun message =>
                (alert message).andThen fun _ => Chain.ret .undefined
          else Chain.ret .undefined
    else Chain.ret .undefined

/-- The reactions of `checkAlerts` to the settled `fetch`:
`.then(resp => resp.json()).then(data => ...).catch(()=>{})`. -/
def checkAlertsSettle (stringToNumber : String → JSNumber) (result : FetchResult) : Chain JSValue :=
  ((result.promise.andThen fun resp => resp.json).andThen (onData stringToNumber)).catch
    fun _ => Chain.ret .undefined

/-- The notifications of one poll cycle. -/
def notifications (stringToNumber : String → JSNumber) (result : FetchResult) : List String :=
  (checkAlertsSettle stringToNumber result).alerts

/-! ## The page: timers, requests in flight, trace of effects -/

/-- The options object a call of `fetch` may pass; `none` is a member left out. -/
structure RequestInit where
  method : Option String
  headers : Option (List (String × String))
  body : Option String
  credentials : Option String
  deriving DecidableEq, Repr

/-- A network request as `fetch` sends it. -/
structure Request where
  method : String
  url : String
  headers : List (String × String)
  body : Option String
  credentials : String
  deriving DecidableEq, Repr

/-- The request `fetch(url, init)` builds: what `init` leaves out takes the
default of the Fetch standard (method `GET`, no header, no body, credentials
mode `same-origin`). -/
def Request.make (url : String) (init : RequestInit) : Request :=
  { method := init.method.getD "GET"
    url := url
    headers := init.headers.getD []
    body := init.body
    credentials := init.credentials.getD "same-origin" }

/-- The functions the script passes to a timer. -/
inductive Callback where
  | checkAlerts
  deriving DecidableEq, Repr

/-- An interval timer: its handle, its callback, its period and the time it is next due, in milliseconds. -/
structure Timer where
  handle : Nat
  callback : Callback
  period : Nat
  due : Nat
  deriving DecidableEq, Repr

/-- A request in flight: sent, its promise not yet settled. -/
structure Pending where
  id : Nat
  request : Request
  issued : Nat
  deriving DecidableEq, Repr

/-- The effects of the script, as the trace records them. -/
inductive Event where
  | timerSet (handle : Nat) (callback : Callback) (period : Nat) (time : Nat)
  | timerFired (handle : Nat) (time : Nat)
  | requestIssued (id : Nat) (request : Request) (time : Nat)
  | alert (message : String)
  deriving DecidableEq, Repr

/-- The state of the page that hosts the script.  `now` is the logical clock in
milliseconds since the script was loaded; it moves when a timer fires, to the
time that timer was due, so the times of the trace are the nominal times of
the timer (how late a host runs a due callback is outside the embedding).
Every request in flight was sent by `checkAlerts`, so its reactions are those
of `checkAlertsSettle`. -/
structure Page where
  now : Nat
  timers : List Timer
  inflight : List Pending
  nextHandle : Nat
  nextId : Nat
  trace : List Event
  deriving DecidableEq, Repr

/-- The page as the script finds it: time 0, no timer, no request, empty trace. -/
def Page.initial : Page :=
  { now := 0, timers := [], inflight := [], nextHandle := 1, nextId := 0, trace := [] }

/-- The call `fetch(url, init)`: the request is sent and joins the requests in flight. -/
def fetch (url : String) (init : RequestInit) (page : Page) : Page :=
  { page with
    inflight := page.inflight ++ [⟨page.nextId, Request.make url init, page.now⟩]
    nextId := page.nextId + 1
    trace := page.trace ++ [.requestIssued page.nextId (Request.make url init) page.now] }

/-- The call `setInterval(callback, period)`: a new timer, first due one period from now. -/
def setInterval (callback : Callback) (period : Nat) (page : Page) : Page :=
  { page with
    timers := page.timers ++ [⟨page.nextHandle, callback, period, page.now + period⟩]
    nextHandle := page.nextHandle + 1
    trace := page.trace ++ [.timerSet page.nextHandle callback period page.now] }

/-- The synchronous part of `checkAlerts`: the call
`fetch('/tamper-monitor/alerts/count-unacked/', {credentials:'same-origin'})`;
the reactions attached to its promise run when the request settles. -/
def checkAlerts (page : Page) : Page :=
  fetch "/tamper-monitor/alerts/count-unacked/"
    { method := none, headers := none, body := none, credentials := some "same-origin" } page

/-- Calling a timer callback. -/
def Callback.call : Callback → Page → Page
  | .checkAlerts => TamperMonitor.checkAlerts

/-- The body of the script (its immediately invoked function):
`setInterval(checkAlerts, 10000); checkAlerts();`. -/
def activate (page : Page) : Page :=
  checkAlerts (setInterval .checkAlerts 10000 page)

/-- The timer that fires next: the one due earliest, the one set first among equals. -/
def nextTimer : List Timer → Option Timer
  | [] => none
  | t :: rest =>
    match nextTimer rest with
    | none => some t
    | some u => if u.due < t.due then some u else some t

/-- A timer fires: the clock moves to its due time, the timer is set again one
period later, and its callback runs.  Nothing happens on a page without timer. -/
def tick (page : Page) : Page :=
  match nextTimer page.timers with
  | none => page
  | some t =>
    t.callback.call
      { page with
        now := t.due
        timers := page.timers.map fun u =>
          if u.handle = t.handle then { u with due := u.due + u.period } else u
        trace := page.trace ++ [.timerFired t.handle t.due] }

/-- The request `id` settles with `result`: it leaves the requests in flight and
the reactions of `checkAlerts` run, their dialogs joining the trace.  Nothing
happens when no such request is in flight. -/
def respond (stringToNumber : String → JSNumber) (id : Nat) (result : FetchResult)
    (page : Page) : Page :=
  if page.inflight.any (fun p => p.id == id) then
    { page with
      inflight := page.inflight.filter fun p => p.id != id
      trace := page.trace ++ (notifications stringToNumber result).map Event.alert }
  else page

/-- What can happen on the page after the script ran. -/
inductive Step where
  | tick
  | respond (id : Nat) (result : FetchResult)
  deriving Repr

/-- One step of the page. -/
def step (stringToNumber : String → JSNumber) (page : Page) : Step → Page
  | .tick => tick page
  | .respond id result => respond stringToNumber id result page

/-- A run of the page. -/
def run (stringToNumber : String → JSNumber) (page : Page) (steps : List Step) : Page :=
  steps.foldl (step stringToNumber) page

/-- The number of timer firings among the steps. -/
def countTicks : List Step → Nat
  | [] => 0
  | .tick :: rest => countTicks rest + 1
  | .respond _ _ :: rest => countTicks rest

/-- The results that answer a poll cycle, read off the steps alone.  Cycle `0`
is the immediate check and cycle `i` is the one the `i`-th tick starts; `issued`
counts the cycles started so far and `answered` lists those that already got
their result.  A result counts when its cycle was started and has not been
answered before; it then counts once, in the order the results arrive. -/
def answers : Nat → List Nat → List Step → List FetchResult
  | _, _, [] => []
  | issued, answered, .tick :: rest => answers (issued + 1) answered rest
  | issued, answered, .respond id result :: rest =>
    if id < issued ∧ id ∉ answered then result :: answers issued (id :: answered) rest
    else answers issued answered rest

/-- The steps of consecutive poll cycles: cycle `id` gets the first result, the
timer then starts the next cycle, which gets the second result, and so on. -/
def pollCycles : Nat → List FetchResult → List Step
  | _, [] => []
  | id, result :: rest => .respond id result :: .tick :: pollCycles (id + 1) rest

/-- The dialogs shown so far, in order. -/
def Page.alerts (page : Page) : List String :=
  page.trace.filterMap fun
    | .alert message => some message
    | _ => none

/-- The times at which requests were sent, in order. -/
def Page.requestTimes (page : Page) : List Nat :=
  page.trace.filterMap fun
    | .requestIssued _ _ time => some time
    | _ => none

/-- The requests sent so far, in order. -/
def Page.requests (page : Page) : List Request :=
  page.trace.filterMap fun
    | .requestIssued _ request _ => some request
    | _ => none

/-- The times at which a timer fired, in order. -/
def Page.fireTimes (page : Page) : List Nat :=
  page.trace.filterMap fun
    | .timerFired _ time => some time
    | _ => none

/-- The request every poll cycle sends. -/
def pollRequest : Request :=
  { method := "GET"
    url := "/tamper-monitor/alerts/count-unacked/"
    headers := []
    body := none
    credentials := "same-origin" }

/-! ## Decimal digits -/

theorem toDigitsCore_acc (fuel : Nat) : ∀ (n : Nat) (ds : List Char),
    Nat.toDigitsCore 10 fuel n ds = Nat.toDigitsCore 10 fuel n [] ++ ds := by
  induction fuel with
  | zero => intro n ds; simp [Nat.toDigitsCore]
  | succ f ih =>
    intro n ds
    simp only [Nat.toDigitsCore]
    by_cases h : n / 10 = 0
    · simp [h]
    · simp only [h, if_false]
      rw [ih (n / 10) (Nat.digitChar (n % 10) :: ds), ih (n / 10) [Nat.digitChar (n % 10)]]
      simp

theorem toDigitsCore_fuel (f1 : Nat) : ∀ (f2 n : Nat), n < f1 → n < f2 →
    Nat.toDigitsCore 10 f1 n [] = Nat.toDigitsCore 10 f2 n [] := by
  induction f1 with
  | zero => intro f2 n h; omega
  | succ f ih =>
    intro f2 n h1 h2
    cases f2 with
    | zero => omega
    | succ g =>
      simp only [Nat.toDigitsCore]
      by_cases h : n / 10 = 0
      · simp [h]
      · simp only [h, if_false]
        rw [toDigitsCore_acc f, toDigitsCore_acc g, ih g (n / 10) (by omega) (by omega)]

/-- The digits of `n ≥ 10` are the digits of `n / 10` followed by the last digit. -/
theorem toDigits_step (n : Nat) (h : 10 ≤ n) :
    Nat.toDigits 10 n = Nat.toDigits 10 (n / 10) ++ [Nat.digitChar (n % 10)] := by
  have h0 : ¬ n / 10 = 0 := by omega
  have unfold1 : Nat.toDigitsCore 10 (n + 1) n [] =
      Nat.toDigitsCore 10 n (n / 10) [Nat.digitChar (n % 10)] := by
    simp only [Nat.toDigitsCore, h0, if_false]
  unfold Nat.toDigits
  rw [unfold1, toDigitsCore_acc, toDigitsCore_fuel n (n / 10 + 1) (n / 10) (by omega) (by omega)]

/-- Cutting the trailing zeros off and writing them back gives the digits of `n`. -/
theorem toDigits_strip (fuel : Nat) : ∀ n : Nat, 0 < n → n ≤ fuel →
    Nat.toDigits 10 (n / 10 ^ trailingZeros fuel n) ++ List.replicate (trailingZeros fuel n) '0'
      = Nat.toDigits 10 n := by
  induction fuel with
  | zero => intro n h1 h2; omega
  | succ f ih =>
    intro n hpos hle
    simp only [trailingZeros]
    by_cases h : n ≠ 0 ∧ n % 10 = 0
    · simp only [h, and_self, ne_eq, not_false_eq_true, if_true]
      have h10 : 10 ≤ n := by omega
      have := ih (n / 10) (by omega) (by omega)
      rw [toDigits_step n h10, ← this, pow_succ, ← Nat.div_div_eq_div_mul, h.2]
      rw [Nat.div_div_eq_div_mul, Nat.div_div_eq_div_mul, Nat.mul_comm 10]
      simp [List.replicate_succ']
      rfl
    · simp [h]

theorem trailingZeros_dvd (fuel : Nat) : ∀ n : Nat, 10 ^ trailingZeros fuel n ∣ n := by
  induction fuel with
  | zero => intro n; simp [trailingZeros]
  | succ f ih =>
    intro n
    simp only [trailingZeros]
    by_cases h : n ≠ 0 ∧ n % 10 = 0
    · simp only [h, and_self, ne_eq, not_false_eq_true, if_true]
      obtain ⟨c, hc⟩ := ih (n / 10)
      refine ⟨c, ?_⟩
      have h10 : n = 10 * (n / 10) := by omega
      rw [pow_succ]
      calc n = 10 * (n / 10) := h10
        _ = 10 * (10 ^ trailingZeros f (n / 10) * c) := by rw [← hc]
        _ = 10 ^ trailingZeros f (n / 10) * 10 * c := by ring
    · simp [h]

theorem ofNat_digits_pos (n : Nat) (hpos : 0 < n) : n / 10 ^ trailingZeros n n ≠ 0 := by
  have hdvd := trailingZeros_dvd n n
  have hle := Nat.le_of_dvd hpos hdvd
  have := Nat.div_pos hle (by positivity : 0 < 10 ^ trailingZeros n n)
  omega

/-- Below `10 ^ 21` the Number of a positive integer prints as the digits of that integer. -/
theorem ofNat_toString (n : Nat) (hpos : 0 < n) (hlt : n < 10 ^ 21) :
    (JSNumber.ofNat n).toString = Nat.repr n := by
  have hstrip := toDigits_strip n n hpos (Nat.le_refl n)
  have hlen : (Nat.toDigits 10 n).length ≤ 21 := by
    have := Nat.repr_length n 21 (by decide) hlt
    simpa [Nat.repr, List.asString] using this
  have hk : (Nat.toDigits 10 n).length
      = (Nat.toDigits 10 (n / 10 ^ trailingZeros n n)).length + trailingZeros n n := by
    conv_lhs => rw [← hstrip]
    simp
  have hn0 : n ≠ 0 := by omega
  simp only [JSNumber.ofNat, hn0, if_false, JSNumber.toString, formatDecimal]
  have hcond : ((Nat.toDigits 10 (n / 10 ^ trailingZeros n n)).length : Int)
      ≤ ((Nat.toDigits 10 n).length : Int) ∧ ((Nat.toDigits 10 n).length : Int) ≤ 21 := by
    constructor <;> omega
  have hz : (((Nat.toDigits 10 n).length : Int)
      - ((Nat.toDigits 10 (n / 10 ^ trailingZeros n n)).length : Int)).toNat
        = trailingZeros n n := by
    omega
  simp only [Bool.false_eq_true, if_false]
  rw [if_pos hcond, hz, hstrip]
  rfl

theorem ofNat_gtZero (n : Nat) (hpos : 0 < n) : (JSNumber.ofNat n).gtZero = true := by
  have hn0 : n ≠ 0 := by omega
  simp [JSNumber.ofNat, hn0, JSNumber.gtZero, ofNat_digits_pos n hpos]

/-! ## One poll cycle -/

theorem gtZero_toBoolean (x : JSNumber) (h : x.gtZero = true) : x.toBoolean = true := by
  cases x <;> simp_all [JSNumber.gtZero, JSNumber.toBoolean]

/-- A count that is a Number greater than zero gives one dialog with that Number printed. -/
theorem settle_number (stringToNumber : String → JSNumber) (status : Nat)
    (props : List (String × JSValue)) (x : JSNumber)
    (hcount : getOwn "count" props = some (.number x)) (hpos : x.gtZero = true) :
    checkAlertsSettle stringToNumber (.response ⟨status, .json (.object props)⟩)
      = ⟨["Tamper Alert: " ++ x.toString
            ++ " unacknowledged alert(s). Open Admin -> TamperAlerts."], .fulfilled .undefined⟩ := by
  have ht := gtZero_toBoolean x hpos
  simp [checkAlertsSettle, FetchResult.promise, Chain.andThen, Chain.ret, Response.json, onData,
    JSValue.count, hcount, Chain.ofExcept, JSValue.toBoolean, ht, JSValue.gtZero,
    JSValue.toPrimitive, JSPrim.toNumber, hpos, concat, JSPrim.toString, alert, Chain.catch]

/-- A falsy count gives no dialog. -/
theorem settle_falsy (stringToNumber : String → JSNumber) (status : Nat)
    (props : List (String × JSValue))
    (hfalsy : ((getOwn "count" props).getD .undefined).toBoolean = false) :
    checkAlertsSettle stringToNumber (.response ⟨status, .json (.object props)⟩)
      = ⟨[], .fulfilled .undefined⟩ := by
  simp [checkAlertsSettle, FetchResult.promise, Chain.andThen, Chain.ret, Response.json, onData,
    JSValue.count, hfalsy, Chain.ofExcept, Chain.catch]

/-- The status of a response plays no part in the cycle. -/
theorem settle_status (stringToNumber : String → JSNumber) (status other : Nat) (body : Body) :
    checkAlertsSettle stringToNumber (.response ⟨status, body⟩)
      = checkAlertsSettle stringToNumber (.response ⟨other, body⟩) := by
  simp [checkAlertsSettle, FetchResult.promise, Chain.andThen, Chain.ret, Response.json]

/-- When the handler of the parsed body returns, it returns `undefined`. -/
theorem onData_fulfilled (stringToNumber : String → JSNumber) (data v : JSValue)
    (h : (onData stringToNumber data).settled = .fulfilled v) : v = .undefined := by
  unfold onData at h
  cases hc : data.count with
  | error e => simp [hc, Chain.ofExcept, Chain.andThen, Chain.throw] at h
  | ok c =>
    simp only [hc, Chain.ofExcept, Chain.andThen, Chain.ret, List.nil_append] at h
    by_cases ht : c.toBoolean = true
    · simp only [ht, if_true] at h
      cases hg : c.gtZero stringToNumber with
      | error e => simp [hg, Chain.throw] at h
      | ok b =>
        cases b with
        | false => simp [hg] at h; exact h.symm
        | true =>
          simp only [hg, if_true, List.nil_append] at h
          cases hm : concat "Tamper Alert: " c
              " unacknowledged alert(s). Open Admin -> TamperAlerts." with
          | error e => simp [hm, Chain.throw] at h
          | ok m => simp [hm, alert] at h; exact h.symm
    · simp [ht] at h; exact h.symm

/-- The chain of a cycle always ends fulfilled with `undefined`. -/
theorem settle_fulfilled (stringToNumber : String → JSNumber) (result : FetchResult) :
    (checkAlertsSettle stringToNumber result).settled = .fulfilled .undefined := by
  unfold checkAlertsSettle Chain.catch
  split
  · next v hv =>
    simp only
    congr
    have hv2 : (((result.promise.andThen fun resp => resp.json).andThen
        (onData stringToNumber)).settled) = .fulfilled v := hv
    unfold Chain.andThen at hv2
    split at hv2
    · exact onData_fulfilled stringToNumber _ v hv2
    · simp at hv2
  · rfl

/-! ## The page -/

theorem checkAlerts_eq (page : Page) :
    checkAlerts page =
      { page with
        inflight := page.inflight ++ [⟨page.nextId, pollRequest, page.now⟩]
        nextId := page.nextId + 1
        trace := page.trace ++ [.requestIssued page.nextId pollRequest page.now] } := by
  rfl

/-- On a page with a single timer a tick fires that timer and sends one request. -/
theorem tick_single (page : Page) (t : Timer) (ht : page.timers = [t]) :
    tick page =
      { now := t.due
        timers := [{ t with due := t.due + t.period }]
        inflight := page.inflight ++ [⟨page.nextId, pollRequest, t.due⟩]
        nextHandle := page.nextHandle
        nextId := page.nextId + 1
        trace := page.trace ++ [.timerFired t.handle t.due, .requestIssued page.nextId pollRequest t.due] } := by
  cases t with
  | mk handle callback period due =>
    cases callback
    simp [tick, ht, nextTimer, Callback.call, checkAlerts_eq]

theorem tick_alerts (page : Page) : (tick page).alerts = page.alerts := by
  unfold tick
  split
  · rfl
  · next t _ =>
    cases t with
    | mk handle callback period due =>
      cases callback
      simp [Callback.call, checkAlerts_eq, Page.alerts, List.filterMap_append]

theorem respond_alerts (stringToNumber : String → JSNumber) (id : Nat) (result : FetchResult)
    (page : Page) (hin : page.inflight.any (fun p => p.id == id) = true) :
    (respond stringToNumber id result page).alerts
      = page.alerts ++ notifications stringToNumber result := by
  simp only [respond, hin, if_true, Page.alerts, List.filterMap_append]
  congr 1
  induction notifications stringToNumber result with
  | nil => rfl
  | cons m rest ih => simp [List.filterMap_cons, ih]

theorem respond_miss (stringToNumber : String → JSNumber) (id : Nat) (result : FetchResult)
    (page : Page) (hout : page.inflight.any (fun p => p.id == id) = false) :
    respond stringToNumber id result page = page := by
  simp [respond, hout]

/-- The dialogs of a run are those of the results that answer a cycle, one batch
per cycle answered, on every page whose requests in flight are the cycles
started and not yet answered. -/
theorem run_answers (stringToNumber : String → JSNumber) (steps : List Step) :
    ∀ (page : Page) (issued : Nat) (answered : List Nat),
      page.nextId = issued →
      (∀ i, page.inflight.any (fun p => p.id == i) = true ↔ (i < issued ∧ i ∉ answered)) →
      (∀ a ∈ answered, a < issued) →
      (∃ t, page.timers = [t]) →
      (run stringToNumber page steps).alerts
        = page.alerts ++ (answers issued answered steps).flatMap (notifications stringToNumber) := by
  induction steps with
  | nil => intro page issued answered _ _ _ _; simp [run, answers]
  | cons st rest ih =>
    intro page issued answered hid hfl hans htimer
    obtain ⟨t, ht⟩ := htimer
    cases st with
    | tick =>
      have htick := tick_single page t ht
      have hid2 : (tick page).nextId = issued + 1 := by rw [htick, ← hid]
      have hfl2 : ∀ i, (tick page).inflight.any (fun p => p.id == i) = true
          ↔ (i < issued + 1 ∧ i ∉ answered) := by
        intro i
        rw [htick]
        simp only [List.any_append, Bool.or_eq_true, hfl i]
        simp only [List.any_cons, List.any_nil, Bool.or_false, beq_iff_eq, hid]
        constructor
        · rintro (⟨h1, h2⟩ | h)
          · exact ⟨by omega, h2⟩
          · subst h
            exact ⟨by omega, fun hmem => absurd (hans _ hmem) (by omega)⟩
        · rintro ⟨h1, h2⟩
          by_cases hi : issued = i
          · exact Or.inr hi
          · exact Or.inl ⟨by omega, h2⟩
      have hans2 : ∀ a ∈ answered, a < issued + 1 := fun a ha => by
        have := hans a ha
        omega
      have htimer2 : ∃ u, (tick page).timers = [u] := by
        rw [htick]
        exact ⟨_, rfl⟩
      have := ih (tick page) (issued + 1) answered hid2 hfl2 hans2 htimer2
      simp only [run, List.foldl_cons, step] at this ⊢
      rw [this, tick_alerts]
      simp [answers]
    | respond id result =>
      by_cases hin : page.inflight.any (fun p => p.id == id) = true
      · have hcond : id < issued ∧ id ∉ answered := (hfl id).mp hin
        have hid2 : (respond stringToNumber id result page).nextId = issued := by
          simp [respond, hin, hid]
        have hfl2 : ∀ i, (respond stringToNumber id result page).inflight.any
            (fun p => p.id == i) = true ↔ (i < issued ∧ i ∉ id :: answered) := by
          intro i
          have hold := hfl i
          simp only [respond, hin, if_true]
          simp only [List.any_eq_true, List.mem_filter, beq_iff_eq, bne_iff_ne, ne_eq,
            List.mem_cons, not_or] at hold ⊢
          constructor
          · rintro ⟨q, ⟨hq, hne⟩, hqi⟩
            have := hold.mp ⟨q, hq, hqi⟩
            exact ⟨this.1, fun h => hne (by rw [hqi, h]), this.2⟩
          · rintro ⟨h1, h2, h3⟩
            obtain ⟨q, hq, hqi⟩ := hold.mpr ⟨h1, h3⟩
            exact ⟨q, ⟨hq, fun h => h2 (by rw [← hqi, h])⟩, hqi⟩
        have hans2 : ∀ a ∈ id :: answered, a < issued := by
          intro a ha
          rcases List.mem_cons.mp ha with h | h
          · rw [h]; exact hcond.1
          · exact hans a h
        have htimer2 : ∃ u, (respond stringToNumber id result page).timers = [u] := by
          simp [respond, hin, ht]
        have := ih (respond stringToNumber id result page) issued (id :: answered)
          hid2 hfl2 hans2 htimer2
        simp only [run, List.foldl_cons, step] at this ⊢
        rw [this, respond_alerts stringToNumber id result page hin]
        simp [answers, hcond]
      · have hout : page.inflight.any (fun p => p.id == id) = false := by simpa using hin
        have hcond : ¬ (id < issued ∧ id ∉ answered) := fun h => hin ((hfl id).mpr h)
        have := ih page issued answered hid hfl hans ⟨t, ht⟩
        simp only [run, List.foldl_cons, step] at this ⊢
        rw [respond_miss stringToNumber id result page hout, this]
        simp [answers, hcond]

/-- In consecutive poll cycles every result answers its cycle. -/
theorem answers_pollCycles (results : List FetchResult) :
    ∀ (id : Nat) (answered : List Nat), (∀ a ∈ answered, a < id) →
      answers (id + 1) answered (pollCycles id results) = results := by
  induction results with
  | nil => intro id answered _; rfl
  | cons r rest ih =>
    intro id answered hans
    have hcond : id < id + 1 ∧ id ∉ answered :=
      ⟨by omega, fun hmem => absurd (hans _ hmem) (by omega)⟩
    have hans2 : ∀ a ∈ id :: answered, a < id + 1 := by
      intro a ha
      rcases List.mem_cons.mp ha with h | h
      · omega
      · have := hans a h
        omega
    simp only [pollCycles, answers, if_pos hcond]
    rw [ih (id + 1) (id :: answered) hans2]

/-- The shape of every page reached from one whose single timer polls every 10000 ms. -/
theorem run_shape (stringToNumber : String → JSNumber) (steps : List Step) :
    ∀ (page : Page) (k handle : Nat), page.now = 10000 * k →
      page.timers = [⟨handle, .checkAlerts, 10000, 10000 * (k + 1)⟩] →
      (run stringToNumber page steps).now = 10000 * (k + countTicks steps)
      ∧ (run stringToNumber page steps).timers
          = [⟨handle, .checkAlerts, 10000, 10000 * (k + countTicks steps + 1)⟩]
      ∧ (run stringToNumber page steps).requestTimes
          = page.requestTimes ++ (List.range (countTicks steps)).map (fun i => 10000 * (k + 1 + i))
      ∧ (run stringToNumber page steps).fireTimes
          = page.fireTimes ++ (List.range (countTicks steps)).map (fun i => 10000 * (k + 1 + i))
      ∧ (run stringToNumber page steps).requests
          = page.requests ++ List.replicate (countTicks steps) pollRequest := by
  induction steps with
  | nil => intro page k handle hnow htimers; simp [run, countTicks, hnow, htimers]
  | cons st rest ih =>
    intro page k handle hnow htimers
    cases st with
    | tick =>
      have htick := tick_single page _ htimers
      have hnow2 : (tick page).now = 10000 * (k + 1) := by rw [htick]
      have htimers2 : (tick page).timers = [⟨handle, .checkAlerts, 10000, 10000 * (k + 1 + 1)⟩] := by
        rw [htick]; simp; ring
      obtain ⟨h1, h2, h3, h4, h5⟩ := ih (tick page) (k + 1) handle hnow2 htimers2
      have e1 : (tick page).requestTimes = page.requestTimes ++ [10000 * (k + 1)] := by
        rw [htick]; simp [Page.requestTimes, List.filterMap_append]
      have e2 : (tick page).fireTimes = page.fireTimes ++ [10000 * (k + 1)] := by
        rw [htick]; simp [Page.fireTimes, List.filterMap_append]
      have e3 : (tick page).requests = page.requests ++ [pollRequest] := by
        rw [htick]; simp [Page.requests, List.filterMap_append]
      have hr : ∀ n : Nat, (List.range (n + 1)).map (fun i => 10000 * (k + 1 + i))
          = 10000 * (k + 1) :: (List.range n).map (fun i => 10000 * (k + 1 + 1 + i)) := by
        intro n
        rw [List.range_succ_eq_map]
        simp [List.map_map, Function.comp_def]
        intro a _
        ring
      simp only [run, List.foldl_cons, step, countTicks] at h1 h2 h3 h4 h5 ⊢
      refine ⟨?_, ?_, ?_, ?_, ?_⟩
      · rw [h1]; ring
      · rw [h2]; simp; ring
      · rw [h3, e1, hr]; simp
      · rw [h4, e2, hr]; simp
      · rw [h5, e3, List.replicate_succ]; simp
    | respond id result =>
      have hnow2 : (respond stringToNumber id result page).now = 10000 * k := by
        unfold respond; split <;> simp [hnow]
      have htimers2 : (respond stringToNumber id result page).timers
          = [⟨handle, .checkAlerts, 10000, 10000 * (k + 1)⟩] := by
        unfold respond; split <;> simp [htimers]
      obtain ⟨h1, h2, h3, h4, h5⟩ :=
        ih (respond stringToNumber id result page) k handle hnow2 htimers2
      have e1 : (respond stringToNumber id result page).requestTimes = page.requestTimes := by
        unfold respond; split
        · simp [Page.requestTimes, List.filterMap_append]
        · rfl
      have e2 : (respond stringToNumber id result page).fireTimes = page.fireTimes := by
        unfold respond; split
        · simp [Page.fireTimes, List.filterMap_append]
        · rfl
      have e3 : (respond stringToNumber id result page).requests = page.requests := by
        unfold respond; split
        · simp [Page.requests, List.filterMap_append]
        · rfl
      simp only [run, List.foldl_cons, step, countTicks] at h1 h2 h3 h4 h5 ⊢
      exact ⟨h1, h2, by rw [h3, e1], by rw [h4, e2], by rw [h5, e3]⟩

/-! ## The claims -/

/-- C1, as amended: when the body parses to an object whose `count` is a positive
integer `n` no larger than `Number.MAX_SAFE_INTEGER`, the cycle produces exactly
one notification, and its text is `"Tamper Alert: "`, the decimal digits of `n`,
then `" unacknowledged alert(s). Open Admin -> TamperAlerts."`, whatever the
status of the response. -/
theorem c1_safe_count_notifies (stringToNumber : String → JSNumber) (status : Nat)
    (props : List (String × JSValue)) (n : Nat)
    (hpos : 0 < n) (hsafe : n ≤ maxSafeInteger)
    (hcount : getOwn "count" props = some (.number (JSNumber.ofNat n))) :
    notifications stringToNumber (.response ⟨status, .json (.object props)⟩)
      = ["Tamper Alert: " ++ Nat.repr n
          ++ " unacknowledged alert(s). Open Admin -> TamperAlerts."] := by
  have hlt : n < 10 ^ 21 := by
    have : maxSafeInteger < 10 ^ 21 := by decide
    omega
  unfold notifications
  rw [settle_number stringToNumber status props _ hcount (ofNat_gtZero n hpos),
    ofNat_toString n hpos hlt]

/-- C1, witness: the body `{"count": 3}` gives the one notification
`"Tamper Alert: 3 unacknowledged alert(s). Open Admin -> TamperAlerts."`. -/
theorem c1_safe_count_notifies_witness :
    (0 < 3 ∧ 3 ≤ maxSafeInteger
      ∧ getOwn "count" [("count", JSValue.number (JSNumber.ofNat 3))]
          = some (.number (JSNumber.ofNat 3)))
    ∧ notifications (fun _ => JSNumber.nan)
        (.response ⟨200, .json (.object [("count", .number (JSNumber.ofNat 3))])⟩)
      = ["Tamper Alert: 3 unacknowledged alert(s). Open Admin -> TamperAlerts."] :=
  ⟨⟨by decide, by decide, by rfl⟩,
    c1_safe_count_notifies (fun _ => JSNumber.nan) 200
      [("count", .number (JSNumber.ofNat 3))] 3 (by decide) (by decide) (by rfl)⟩

/-- C1, counterexample: the count `10 ^ 21` is a positive integer, and the
notification shows it as `1e+21`, not as its decimal digits. -/
theorem c1_large_count_counterexample :
    notifications (fun _ => JSNumber.nan)
        (.response ⟨200, .json (.object [("count", .number (JSNumber.ofNat (10 ^ 21)))])⟩)
      = ["Tamper Alert: 1e+21 unacknowledged alert(s). Open Admin -> TamperAlerts."]
    ∧ notifications (fun _ => JSNumber.nan)
        (.response ⟨200, .json (.object [("count", .number (JSNumber.ofNat (10 ^ 21)))])⟩)
      ≠ ["Tamper Alert: " ++ Nat.repr (10 ^ 21)
          ++ " unacknowledged alert(s). Open Admin -> TamperAlerts."] := by
  constructor <;> decide

/-- C2: when the body parses to an object whose `count` is absent, `undefined`,
`null` or `0`, the cycle produces no notification. -/
theorem c2_no_count_no_notification (stringToNumber : String → JSNumber) (status : Nat)
    (props : List (String × JSValue))
    (hcount : getOwn "count" props = none
      ∨ getOwn "count" props = some .undefined
      ∨ getOwn "count" props = some .null
      ∨ getOwn "count" props = some (.number (JSNumber.ofNat 0))) :
    notifications stringToNumber (.response ⟨status, .json (.object props)⟩) = [] := by
  unfold notifications
  rw [settle_falsy]
  rcases hcount with h | h | h | h <;> rw [h] <;> rfl

/-- C2, witness: the body `{}` has no `count`, and gives no notification. -/
theorem c2_no_count_no_notification_witness :
    (getOwn "count" [] = none
      ∨ getOwn "count" [] = some .undefined
      ∨ getOwn "count" [] = some .null
      ∨ getOwn "count" [] = some (.number (JSNumber.ofNat 0)))
    ∧ notifications (fun _ => JSNumber.nan) (.response ⟨200, .json (.object [])⟩) = [] :=
  ⟨Or.inl rfl, c2_no_count_no_notification (fun _ => JSNumber.nan) 200 [] (Or.inl rfl)⟩

/-- C3, as amended: the status of a response is not inspected.  A response with a
non-success status gives the notifications the same body gives under status
200, and gives none when its body is not JSON. -/
theorem c3_status_not_inspected (stringToNumber : String → JSNumber) (resp : Response)
    (hstatus : resp.ok = false) :
    notifications stringToNumber (.response resp)
      = notifications stringToNumber (.response ⟨200, resp.body⟩)
    ∧ (resp.body = .notJson → notifications stringToNumber (.response resp) = []) := by
  cases resp with
  | mk status body =>
    constructor
    · unfold notifications
      rw [settle_status stringToNumber status 200 body]
    · intro hbody
      simp only at hbody
      subst hbody
      rfl

/-- C3, witness: a 500 response whose body is not JSON gives no notification. -/
theorem c3_status_not_inspected_witness :
    Response.ok ⟨500, .notJson⟩ = false
    ∧ notifications (fun _ => JSNumber.nan) (.response ⟨500, .notJson⟩)
        = notifications (fun _ => JSNumber.nan) (.response ⟨200, .notJson⟩)
    ∧ ((⟨500, .notJson⟩ : Response).body = .notJson →
        notifications (fun _ => JSNumber.nan) (.response ⟨500, .notJson⟩) = []) :=
  ⟨by decide, c3_status_not_inspected (fun _ => JSNumber.nan) ⟨500, .notJson⟩ (by decide)⟩

/-- C3, counterexample: a response with status 500 whose body is `{"count": 3}`
does produce a notification. -/
theorem c3_error_status_counterexample :
    Response.ok ⟨500, .json (.object [("count", .number (JSNumber.ofNat 3))])⟩ = false
    ∧ notifications (fun _ => JSNumber.nan)
        (.response ⟨500, .json (.object [("count", .number (JSNumber.ofNat 3))])⟩)
      = ["Tamper Alert: 3 unacknowledged alert(s). Open Admin -> TamperAlerts."] := by
  constructor <;> decide

/-- C4: when the network call rejects, or the body cannot be parsed as JSON, the
cycle produces no notification and its promise chain ends fulfilled; the
chain of a cycle ends fulfilled whatever the result of the request. -/
theorem c4_failures_absorbed (stringToNumber : String → JSNumber) (status : Nat) :
    (FetchResult.networkError.promise.settled = .rejected .typeError
      ∧ checkAlertsSettle stringToNumber .networkError = ⟨[], .fulfilled .undefined⟩)
    ∧ ((Response.json ⟨status, .notJson⟩).settled = .rejected .syntaxError
      ∧ checkAlertsSettle stringToNumber (.response ⟨status, .notJson⟩)
          = ⟨[], .fulfilled .undefined⟩)
    ∧ ∀ result : FetchResult,
        (checkAlertsSettle stringToNumber result).settled = .fulfilled .undefined :=
  ⟨⟨rfl, rfl⟩, ⟨rfl, rfl⟩, settle_fulfilled stringToNumber⟩

/-- C5: after activation the poll cycles start at the times 0, 10000, 20000, ...
milliseconds.  The cycle at time 0 is started by the activation itself, before
any timer fired; the timer fires at 10000, 20000, ...; and every page reached
has exactly one timer, with period 10000 and callback `checkAlerts`, still set. -/
theorem c5_poll_schedule (stringToNumber : String → JSNumber) (steps : List Step) :
    ((activate Page.initial).requestTimes = [0] ∧ (activate Page.initial).fireTimes = [])
    ∧ (run stringToNumber (activate Page.initial) steps).requestTimes
        = (List.range (countTicks steps + 1)).map (fun i => i * 10000)
    ∧ (run stringToNumber (activate Page.initial) steps).fireTimes
        = (List.range (countTicks steps)).map (fun i => (i + 1) * 10000)
    ∧ (run stringToNumber (activate Page.initial) steps).timers
        = [⟨1, .checkAlerts, 10000, (countTicks steps + 1) * 10000⟩] := by
  obtain ⟨_, h2, h3, h4, _⟩ :=
    run_shape stringToNumber steps (activate Page.initial) 0 1 (by decide) (by decide)
  refine ⟨⟨by decide, by decide⟩, ?_, ?_, ?_⟩
  · rw [h3, List.range_succ_eq_map]
    have : (activate Page.initial).requestTimes = [0] := by decide
    rw [this]
    simp [List.map_map, Function.comp_def]
    intro a _
    ring
  · rw [h4]
    have : (activate Page.initial).fireTimes = [] := by decide
    rw [this]
    simp
    intro a _
    ring
  · rw [h2]
    simp
    ring

/-- C6: for every sequence of poll-cycle results, the notifications produced are
the notifications of each cycle in the order the results are processed, each
computed from that cycle's result alone.  This holds for consecutive cycles
and for every run; in a run a result counts when it answers a cycle that was
started and not answered before, whatever else was answered meanwhile.  Two
cycles that both return `{"count": 1}` give two notifications, and two
overlapping cycles answered in the reverse order give theirs in that order. -/
theorem c6_notifications_per_cycle (stringToNumber : String → JSNumber)
    (results : List FetchResult) (steps : List Step) :
    (run stringToNumber (activate Page.initial) (pollCycles 0 results)).alerts
      = results.flatMap (notifications stringToNumber)
    ∧ (run stringToNumber (activate Page.initial) steps).alerts
      = (answers 1 [] steps).flatMap (notifications stringToNumber)
    ∧ (run stringToNumber (activate Page.initial)
        [.respond 0 (.response ⟨200, .json (.object [("count", .number (JSNumber.ofNat 1))])⟩),
         .tick,
         .respond 1 (.response ⟨200, .json (.object [("count", .number (JSNumber.ofNat 1))])⟩)]).alerts
      = ["Tamper Alert: 1 unacknowledged alert(s). Open Admin -> TamperAlerts.",
         "Tamper Alert: 1 unacknowledged alert(s). Open Admin -> TamperAlerts."]
    ∧ (run stringToNumber (activate Page.initial)
        [.tick,
         .respond 1 (.response ⟨200, .json (.object [("count", .number (JSNumber.ofNat 2))])⟩),
         .respond 0 (.response ⟨200, .json (.object [("count", .number (JSNumber.ofNat 7))])⟩),
         .respond 0 (.response ⟨200, .json (.object [("count", .number (JSNumber.ofNat 7))])⟩)]).alerts
      = ["Tamper Alert: 2 unacknowledged alert(s). Open Admin -> TamperAlerts.",
         "Tamper Alert: 7 unacknowledged alert(s). Open Admin -> TamperAlerts."] := by
  have hgen : ∀ st : List Step, (run stringToNumber (activate Page.initial) st).alerts
      = (answers 1 [] st).flatMap (notifications stringToNumber) := by
    intro st
    rw [run_answers stringToNumber st (activate Page.initial) 1 [] (by decide)
      (by
        intro i
        have : (activate Page.initial).inflight = [⟨0, pollRequest, 0⟩] := by decide
        rw [this]
        simp
        omega)
      (by simp) ⟨⟨1, .checkAlerts, 10000, 10000⟩, by decide⟩]
    have : (activate Page.initial).alerts = [] := by decide
    rw [this]
    simp
  refine ⟨?_, hgen steps, rfl, rfl⟩
  rw [hgen, answers_pollCycles results 0 [] (by simp)]

/-- C7: a call of `checkAlerts` sends exactly one request, and it is always
`GET /tamper-monitor/alerts/count-unacked/` with credentials mode `same-origin`,
no header and no body; along every run the requests sent are one such request
per cycle, whatever the responses were. -/
theorem c7_fixed_request (stringToNumber : String → JSNumber) (steps : List Step) (page : Page) :
    (checkAlerts page).trace
      = page.trace ++ [.requestIssued page.nextId
          ⟨"GET", "/tamper-monitor/alerts/count-unacked/", [], none, "same-origin"⟩ page.now]
    ∧ (run stringToNumber (activate Page.initial) steps).requests
      = List.replicate (countTicks steps + 1)
          ⟨"GET", "/tamper-monitor/alerts/count-unacked/", [], none, "same-origin"⟩ := by
  obtain ⟨_, _, _, _, h5⟩ :=
    run_shape stringToNumber steps (activate Page.initial) 0 1 (by decide) (by decide)
  constructor
  · rfl
  · rw [h5]
    have : (activate Page.initial).requests = [pollRequest] := by decide
    rw [this, List.replicate_succ]
    rfl

/-- C8: on every page reached after activation, with any number of requests in
flight, a tick sends one more request and leaves the earlier ones in flight. -/
theorem c8_tick_adds_request (stringToNumber : String → JSNumber) (steps : List Step) :
    (tick (run stringToNumber (activate Page.initial) steps)).inflight
      = (run stringToNumber (activate Page.initial) steps).inflight
        ++ [⟨(run stringToNumber (activate Page.initial) steps).nextId, pollRequest,
            (run stringToNumber (activate Page.initial) steps).now + 10000⟩]
    ∧ (tick (run stringToNumber (activate Page.initial) steps)).inflight.length
      = (run stringToNumber (activate Page.initial) steps).inflight.length + 1 := by
  obtain ⟨h1, h2, _, _, _⟩ :=
    run_shape stringToNumber steps (activate Page.initial) 0 1 (by decide) (by decide)
  have htick := tick_single _ _ h2
  have hins : (tick (run stringToNumber (activate Page.initial) steps)).inflight
      = (run stringToNumber (activate Page.initial) steps).inflight
        ++ [⟨(run stringToNumber (activate Page.initial) steps).nextId, pollRequest,
            (run stringToNumber (activate Page.initial) steps).now + 10000⟩] := by
    rw [htick, h1]
    simp
    ring
  exact ⟨hins, by rw [hins]; simp⟩

/-- C9, as amended: on activation the recurring timer of 10000 ms is set first,
and the immediate check, whose request is sent, comes second. -/
theorem c9_timer_then_check (page : Page) :
    (activate page).trace
      = page.trace ++ [.timerSet page.nextHandle .checkAlerts 10000 page.now,
          .requestIssued page.nextId pollRequest page.now] := by
  simp [activate, setInterval, checkAlerts_eq]

/-- C9, counterexample: in the trace of the activation the request of the
immediate check does not come before the registration of the timer. -/
theorem c9_check_first_counterexample :
    ¬ ((activate Page.initial).trace.indexOf (.requestIssued 0 pollRequest 0)
        < (activate Page.initial).trace.indexOf (.timerSet 1 .checkAlerts 10000 0))
    ∧ (activate Page.initial).trace
        = [.timerSet 1 .checkAlerts 10000 0, .requestIssued 0 pollRequest 0] := by
  constructor <;> decide

/-- C10: when the body parses to `null`, reading `data.count` throws a TypeError
in the handler, the cycle produces no notification, and the trailing `catch`
leaves the chain fulfilled. -/
theorem c10_null_body_absorbed (stringToNumber : String → JSNumber) (status : Nat) :
    onData stringToNumber .null = ⟨[], .rejected .typeError⟩
    ∧ checkAlertsSettle stringToNumber (.response ⟨status, .json .null⟩)
        = ⟨[], .fulfilled .undefined⟩ :=
  ⟨rfl, rfl⟩

end TamperMonitor
